import Mathlib

/-!
Verification of `list_support_requests.py` (JiraMaster repository).

The Python module is shallowly embedded: each Python function that a claim
refers to is translated into an executable Lean definition of the same name.
External effects (environment lookups, HTTP requests, the chat-completion
endpoint, the filesystem) are passed in explicitly as oracle values, so the
control flow of each function can be reproduced faithfully and reasoned about.

Python string primitives used by the module (`str.upper`, `str.lower`,
`str.strip`, `str.endswith`) are embedded as list-based functions `py_upper`,
`py_lower`, `py_strip`, `py_endswith` so that every definition evaluates by
kernel reduction.
-/

namespace ListSupportRequests

/-- ASCII uppercase of one character, as Python's `str.upper` acts on the ASCII
letters appearing in the configuration keys. -/
def upperChar (c : Char) : Char :=
  if 97 ≤ c.toNat ∧ c.toNat ≤ 122 then Char.ofNat (c.toNat - 32) else c

/-- ASCII lowercase of one character, as Python's `str.lower` acts on the ASCII
letters appearing in attachment filenames. -/
def lowerChar (c : Char) : Char :=
  if 65 ≤ c.toNat ∧ c.toNat ≤ 90 then Char.ofNat (c.toNat + 32) else c

/-- Embedding of Python `s.upper()` (ASCII range). -/
def py_upper (s : String) : String := ⟨s.data.map upperChar⟩

/-- Embedding of Python `s.lower()` (ASCII range). -/
def py_lower (s : String) : String := ⟨s.data.map lowerChar⟩

/-- The ASCII whitespace characters stripped by Python `str.strip()`. -/
def pySpace (c : Char) : Bool :=
  c = ' ' || c = '\t' || c = '\n' || c = '\r' || c = '\x0b' || c = '\x0c'

/-- Embedding of Python `s.strip()`: drop leading and trailing whitespace. -/
def py_strip (s : String) : String :=
  ⟨((s.data.dropWhile pySpace).reverse.dropWhile pySpace).reverse⟩

/-- Embedding of Python `s.endswith(suf)`. -/
def py_endswith (s suf : String) : Bool :=
  suf.data.isSuffixOf s.data

/-- Python truthiness of an `os.getenv` result: `None` (absent) and the empty
string are falsy, every other string is truthy. -/
def truthy : Option String → Bool
  | none => false
  | some s => s ≠ ""

/-- The `config_vars` dictionary of `load_configuration`
(src/list_support_requests.py, lines 84-92): each internal setting key paired
with the name of the environment variable read for it, in insertion order. -/
def config_keys : List (String × String) :=
  [("url", "JIRA_URL"),
   ("user", "JIRA_USER"),
   ("api_token", "JIRA_API_TOKEN"),
   ("jql_query", "JIRA_JQL_QUERY"),
   ("lm_studio_base_url", "LM_STUDIO_BASE_URL"),
   ("lm_studio_api_key", "LM_STUDIO_API_KEY"),
   ("lm_studio_model", "LM_STUDIO_MODEL")]

/-- The seven required environment variable names, as the specification lists
them. -/
def required_env_names : List String :=
  ["JIRA_URL", "JIRA_USER", "JIRA_API_TOKEN", "JIRA_JQL_QUERY",
   "LM_STUDIO_BASE_URL", "LM_STUDIO_API_KEY", "LM_STUDIO_MODEL"]

/-- The `missing` list computed at line 94 of `load_configuration`:
`[key.upper() for key, value in config_vars.items() if not value]`.
The process environment is modelled as a partial map from names to values. -/
def missing_names (env : String → Option String) : List String :=
  (config_keys.filter (fun p => !truthy (env p.2))).map (fun p => py_upper p.1)

/-- `load_configuration` (lines 71-101): reads the seven settings from the
environment; raises `EnvironmentError` (modelled as `.error` carrying the
message built at line 96) when any value is absent or empty, otherwise returns
the configuration dictionary. -/
def load_configuration (env : String → Option String) :
    Except String (List (String × Option String)) :=
  let missing := missing_names env
  if missing = [] then
    Except.ok (config_keys.map (fun p => (p.1, env p.2)))
  else
    Except.error ("Missing required environment variables: " ++
      String.intercalate ", " missing)

/-- An environment in which every required variable is set to a non-empty
value except `JIRA_URL`, which is unset. -/
def env_no_jira_url : String → Option String :=
  fun n => if n = "JIRA_URL" then none else some "x"

/-- C1 (code_bug evaluation): with exactly `JIRA_URL` unset, the required
variable missing is `JIRA_URL`, yet `load_configuration` raises a message
naming `URL` — the uppercased internal key — which is not the name of any
environment variable it reads. The sibling loaders in the repository
(`jira_connector.load_configuration`, `get_issue_description.load_configuration`)
report the exact environment variable names, and the message text itself
promises environment variable names, so the reported list here is a slip. -/
theorem load_configuration_reports_internal_key :
    load_configuration env_no_jira_url =
      Except.error "Missing required environment variables: URL" ∧
    required_env_names.filter (fun n => !truthy (env_no_jira_url n)) = ["JIRA_URL"] ∧
    ("URL" : String) ≠ "JIRA_URL" ∧
    (∀ env : String → Option String, missing_names env = [] →
      load_configuration env = Except.ok (config_keys.map (fun p => (p.1, env p.2)))) := by
  refine ⟨rfl, rfl, by decide, ?_⟩
  intro env h
  simp [load_configuration, h]

/-- One inline item of a Jira rich-text block: its optional `text` field
(`none` models a dict without the `text` key). -/
structure InlineItem where
  text : Option String
deriving DecidableEq

/-- One block of a Jira rich-text description: its optional `content` list of
inline items (`none` models a dict without the `content` key). -/
structure Block where
  content : Option (List InlineItem)
deriving DecidableEq

/-- The value of a Jira `description` field: its optional top-level `content`
list of blocks. A `DescField` with `content = none` models any dict lacking
the `content` key; the falsy empty dict of the Python guard at line 160 is the
same case, and both take the same branch there. -/
structure DescField where
  content : Option (List Block)
deriving DecidableEq

/-- The nested loop of `get_description_text` (lines 163-169): walk the blocks
in order and, for each block carrying a `content` key, append the `text` field
of every item that has one to `text_parts`. -/
def collect_parts : List Block → List String
  | [] => []
  | b :: rest =>
    match b.content with
    | none => collect_parts rest
    | some items => items.filterMap (fun it => it.text) ++ collect_parts rest

/-- `get_description_text` (lines 150-175): `None` or a `content`-less dict
yields the sentinel; otherwise the collected text parts are joined with
newlines, stripped, and an all-whitespace result falls back to the sentinel. -/
def get_description_text : Option DescField → String
  | none => "No description available."
  | some df =>
    match df.content with
    | none => "No description available."
    | some blocks =>
      let full_text := py_strip (String.intercalate "\n" (collect_parts blocks))
      if full_text = "" then "No description available." else full_text

/-- Specification-side description extraction (amended wording): every inline
`text` field in traversal order, each consecutive pair joined by one newline
(within a block as well as across blocks), stripped of surrounding whitespace,
with the sentinel `"No description available."` for absent, `content`-less or
text-free input. -/
def description_text_spec (d : Option DescField) : String :=
  match d with
  | none => "No description available."
  | some df =>
    match df.content with
    | none => "No description available."
    | some blocks =>
      let parts :=
        (blocks.map (fun b => (b.content.getD []).filterMap (fun it => it.text))).flatten
      let s := py_strip (String.intercalate "\n" parts)
      if s = "" then "No description available." else s

/-- Jira attachment descriptor: the `filename` and `content` (download URL)
fields, each possibly absent. -/
structure Attachment where
  filename : Option String
  content : Option String
deriving DecidableEq

/-- The `fields` object of a Jira issue, restricted to the three fields the
search requests (line 237): `summary`, `attachment`, `description`. -/
structure IssueFields where
  summary : Option String
  attachment : Option (List Attachment)
  description : Option DescField
deriving DecidableEq

/-- One issue record from the search response. `msg_attachment` models the
`'msg_attachment'` dict key: absent (`none`) in the data returned by the
tracker, and set by the attachment filter at line 254. -/
structure Issue where
  key : Option String
  fields : Option IssueFields
  msg_attachment : Option Attachment
deriving DecidableEq

/-- `issue.get("fields", {}).get("attachment", [])` (line 249). -/
def attachments_of (issue : Issue) : List Attachment :=
  match issue.fields with
  | none => []
  | some f => f.attachment.getD []

/-- The comprehension predicate of line 251:
`att.get("filename", "").lower().endswith(".msg")`. -/
def is_msg_attachment (att : Attachment) : Bool :=
  py_endswith (py_lower (att.filename.getD "")) ".msg"

/-- The `msg_attachments` list of lines 250-252. -/
def msg_attachments_of (issue : Issue) : List Attachment :=
  (attachments_of issue).filter is_msg_attachment

/-- The attachment filter of `process_issues` (lines 247-255): keep the issues
having at least one `.msg` attachment, in order, storing the first qualifying
attachment under the issue's `msg_attachment` key. -/
def filter_msg_issues : List Issue → List Issue
  | [] => []
  | issue :: rest =>
    match msg_attachments_of issue with
    | [] => filter_msg_issues rest
    | a :: _ => { issue with msg_attachment := some a } :: filter_msg_issues rest

/-- Python truthiness test of line 190, `not description or not
description.strip()`, for a `description` argument that is a `str` or `None`. -/
def blank_text : Option String → Bool
  | none => true
  | some s => s = "" || py_strip s = ""

/-- Outcome of one `client.chat.completions.create` call: `.error e` models a
raised exception with message text `e`; `.ok c` models a response whose first
choice's message content is `c` (`none` for a null content). -/
abbrev CompletionOutcome := Except String (Option String)

/-- `get_summary_from_lm_studio` (lines 178-211), with the completion call's
outcome passed in as an oracle. The result pairs the returned string with the
number of chat-completion calls performed (0 or 1). Blank input returns at
line 191 before the call; a raised exception is caught at line 209 and turned
into the error string of line 211; a successful call returns the stripped
content, or the sentinel of line 208 when the content is `None` or empty. -/
def get_summary_from_lm_studio (call : CompletionOutcome)
    (description : Option String) : String × Nat :=
  if blank_text description then ("No text provided to summarize.", 0)
  else
    match call with
    | Except.error e => ("Error generating summary: " ++ e, 1)
    | Except.ok summary =>
      match summary with
      | none => ("Summary was empty.", 1)
      | some s => (if s = "" then "Summary was empty." else py_strip s, 1)

/-- Filesystem-and-network state threaded through the enrichment loop: the
paths that currently exist, and the number of attachment GET requests
performed so far. -/
structure World where
  files : List String
  downloads : Nat
deriving DecidableEq

/-- `os.path.exists` on the modelled filesystem. -/
def World.fileExists (w : World) (p : String) : Bool := w.files.contains p

/-- Creation of a named temporary file (line 291). -/
def World.createFile (w : World) (p : String) : World :=
  { w with files := p :: w.files }

/-- `os.remove` (line 318). -/
def World.removeFile (w : World) (p : String) : World :=
  { w with files := w.files.filter (fun q => q ≠ p) }

/-- External outcomes consumed while enriching one issue: the completion call
for the description summary; the path `NamedTemporaryFile` chooses; the
attachment download outcome (`.error` models a raised `RequestException`,
including `raise_for_status` on a 4xx/5xx reply); the parse outcome (`.error`
models any exception out of `extract_msg`, `.ok b` yields `msg.body`, which
may be `None`); and the completion call for the email summary. -/
structure IssueOracle where
  descCall : CompletionOutcome
  tmpName : String
  download : Except String Unit
  parse : Except String (Option String)
  emailCall : CompletionOutcome

/-- One output record appended at lines 320-325. -/
structure ProcessedIssue where
  key : Option String
  title : String
  desc_summary : String
  email_summary : String
deriving DecidableEq

/-- The loop body of `process_issues` for one retained issue (lines 267-325).
The issue has been through the filter, so the `msg_attachment` key read by
line 280 is present; `getD` supplies a dummy for the unreachable absent case.
The download branch runs only when the attachment's `content` URL is truthy
(line 283). On a successful download the bytes land in a fresh temporary file,
whose removal at lines 315-318 runs on every exit of the inner `try`; the
parse-failure and download-failure handlers (lines 309-314) replace the email
summary with their sentinels, and a missing URL leaves the default sentinel of
line 279. -/
def process_one (o : IssueOracle) (w : World) (issue : Issue) :
    ProcessedIssue × World :=
  let fields := issue.fields.getD ⟨none, none, none⟩
  let key := issue.key
  let summary_title := fields.summary.getD "No summary"
  let description := get_description_text fields.description
  let desc_summary := (get_summary_from_lm_studio o.descCall (some description)).1
  let attachment_meta := issue.msg_attachment.getD ⟨none, none⟩
  let attachment_url := attachment_meta.content
  if truthy attachment_url then
    match o.download with
    | Except.error _ =>
      (⟨key, summary_title, desc_summary, "Error: Failed to download attachment."⟩,
       { w with downloads := w.downloads + 1 })
    | Except.ok _ =>
      let w1 := ({ w with downloads := w.downloads + 1 }).createFile o.tmpName
      let email_summary :=
        match o.parse with
        | Except.error _ => "Error: Failed to parse email file."
        | Except.ok body => (get_summary_from_lm_studio o.emailCall body).1
      let w2 := if w1.fileExists o.tmpName then w1.removeFile o.tmpName else w1
      (⟨key, summary_title, desc_summary, email_summary⟩, w2)
  else
    (⟨key, summary_title, desc_summary, "Could not process email attachment."⟩, w)

/-- The `for issue in issues_with_msg` loop of lines 267-325, with one oracle
per loop index. -/
def run_loop (oracles : Nat → IssueOracle) :
    Nat → World → List Issue → List ProcessedIssue × World
  | _, w, [] => ([], w)
  | i, w, issue :: rest =>
    let pr := process_one (oracles i) w issue
    let rest_result := run_loop oracles (i + 1) pr.2 rest
    (pr.1 :: rest_result.1, rest_result.2)

/-- Outcome of the JQL search request of lines 241-245: `.error` models a
raised `HTTPError` or `RequestException`; `.ok body` a parsed JSON reply whose
`issues` field is `body` (`none` when the key is absent, in which case line
245 substitutes the empty list). -/
abbrev SearchOutcome := Except String (Option (List Issue))

/-- `process_issues` (lines 214-339): a search failure is caught at lines
327-337 and ends the process via `sys.exit(1)`, modelled as `.error 1`; a
successful search filters the issues and runs the enrichment loop. -/
def process_issues (oracles : Nat → IssueOracle) (search : SearchOutcome)
    (w : World) : Except Nat (List ProcessedIssue × World) :=
  match search with
  | Except.error _ => Except.error 1
  | Except.ok body =>
    let issues := body.getD []
    let issues_with_msg := filter_msg_issues issues
    Except.ok (run_loop oracles 0 w issues_with_msg)

/-- The two comprehension predicates agree: `is_msg_attachment` is literally
"filename, lowercased, ends with `.msg`". -/
theorem is_msg_attachment_eq :
    (fun a : Attachment => py_endswith (py_lower (a.filename.getD "")) ".msg") =
      is_msg_attachment := rfl

/-- C2: the attachment filter keeps exactly the issues having at least one
attachment whose filename, lowercased, ends with `.msg`, in input order, and
stores the first qualifying attachment (in source order) on each retained
issue for the enrichment loop to use; issues without a qualifying attachment
are dropped. -/
theorem filter_retains_msg_issues (issues : List Issue) :
    filter_msg_issues issues =
      (issues.filter
        (fun i => (attachments_of i).any
          (fun a => py_endswith (py_lower (a.filename.getD "")) ".msg"))).map
        (fun i => { i with msg_attachment :=
          ((attachments_of i).filter
            (fun a => py_endswith (py_lower (a.filename.getD "")) ".msg")).head? }) := by
  rw [is_msg_attachment_eq]
  induction issues with
  | nil => rfl
  | cons issue rest ih =>
    cases h : msg_attachments_of issue with
    | nil =>
      have hfil : (attachments_of issue).filter is_msg_attachment = [] := h
      have hany : ((attachments_of issue).any is_msg_attachment) = false := by
        rw [List.any_eq_false]
        intro x hx
        exact (List.filter_eq_nil_iff.mp hfil) x hx
      simpa [filter_msg_issues, h, List.filter_cons, hany] using ih
    | cons a as =>
      have hfil : (attachments_of issue).filter is_msg_attachment = a :: as := h
      have hmem : a ∈ (attachments_of issue).filter is_msg_attachment := by
        rw [hfil]; exact List.mem_cons_self a as
      have hany : ((attachments_of issue).any is_msg_attachment) = true := by
        rw [List.any_eq_true]
        exact ⟨a, List.mem_of_mem_filter hmem, (List.mem_filter.mp hmem).2⟩
      simp only [filter_msg_issues, h, List.filter_cons, hany, if_true, List.map_cons]
      refine List.cons_eq_cons.mpr ⟨?_, ih⟩
      rw [hfil]
      rfl

/-- The imperative text-part collection equals the flattened per-block
traversal. -/
theorem collect_parts_eq_flatten (blocks : List Block) :
    collect_parts blocks =
      (blocks.map (fun b => (b.content.getD []).filterMap (fun it => it.text))).flatten := by
  induction blocks with
  | nil => rfl
  | cons b rest ih =>
    cases hb : b.content with
    | none => simp [collect_parts, hb, ih]
    | some items => simp [collect_parts, hb, ih]

/-- C3 (counterexample to the claim as stated): the sentinel the code returns
is `"No description available."`, not `"no description available"`; and a
single block holding two inline texts yields `"A\nB"`, not the plain
concatenation `"AB"` that "joined by newlines between blocks" prescribes for
texts inside one block. -/
theorem get_description_text_claim_cex :
    get_description_text none = "No description available." ∧
    ("No description available." : String) ≠ "no description available" ∧
    get_description_text (some ⟨some [⟨some [⟨some "A"⟩, ⟨some "B"⟩]⟩]⟩) = "A\nB" ∧
    ("A\nB" : String) ≠ "AB" :=
  ⟨rfl, by decide, rfl, by decide⟩

/-- C3 (amended): `get_description_text` returns every inline `text` field in
traversal order joined by newlines between consecutive text items (within a
block as well as across blocks), stripped of surrounding whitespace; the
two-block example yields `"A\nB"`; absent, `content`-less or text-free input
yields the sentinel `"No description available."`, and the function is total,
so extraction never fails the pipeline. -/
theorem get_description_text_amended :
    (∀ d, get_description_text d = description_text_spec d) ∧
    get_description_text
      (some ⟨some [⟨some [⟨some "A"⟩]⟩, ⟨some [⟨some "B"⟩]⟩]⟩) = "A\nB" ∧
    get_description_text none = "No description available." ∧
    get_description_text (some ⟨none⟩) = "No description available." := by
  refine ⟨?_, rfl, rfl, rfl⟩
  intro d
  cases d with
  | none => rfl
  | some df =>
    obtain ⟨c⟩ := df
    cases c with
    | none => rfl
    | some blocks =>
      simp [get_description_text, description_text_spec, collect_parts_eq_flatten]

/-- C4 (counterexample to the claim as stated): on empty input the function
returns the string `"No text provided to summarize."`, which is not the
claimed `"nothing to summarize"` sentinel. -/
theorem blank_summary_sentinel_cex :
    get_summary_from_lm_studio (Except.ok (some "S")) (some "") =
      ("No text provided to summarize.", 0) ∧
    ("No text provided to summarize." : String) ≠ "nothing to summarize" :=
  ⟨rfl, by decide⟩

/-- C4 (amended): for every completion oracle and every input string that is
empty or whitespace-only, `get_summary_from_lm_studio` returns the fixed
sentinel `"No text provided to summarize."` and performs zero chat-completion
calls. -/
theorem blank_summary_short_circuits (call : CompletionOutcome) (s : String)
    (h : py_strip s = "") :
    get_summary_from_lm_studio call (some s) = ("No text provided to summarize.", 0) := by
  have hb : blank_text (some s) = true := by
    simp [blank_text, h]
  simp [get_summary_from_lm_studio, hb]

/-- Witness for `blank_summary_short_circuits` at the whitespace-only input
`"  "`. -/
theorem blank_summary_short_circuits_witness :
    get_summary_from_lm_studio (Except.ok (some "S")) (some "  ") =
      ("No text provided to summarize.", 0) :=
  blank_summary_short_circuits (Except.ok (some "S")) "  " (by decide)

/-- C5: for non-blank input the summarization function is total over every
completion outcome — failure is returned as data, never thrown. A raised
exception `e` yields exactly `"Error generating summary: " ++ e` (so the
result contains both the fixed prefix text and the original error text); a
successful call yields the content stripped of whitespace, or the sentinel
`"Summary was empty."` when the content is `None` or the empty string. Each
path performs exactly one completion call. -/
theorem get_summary_never_raises (d : Option String) (hd : blank_text d = false) :
    (∀ e, get_summary_from_lm_studio (Except.error e) d =
      ("Error generating summary: " ++ e, 1)) ∧
    get_summary_from_lm_studio (Except.ok none) d = ("Summary was empty.", 1) ∧
    get_summary_from_lm_studio (Except.ok (some "")) d = ("Summary was empty.", 1) ∧
    (∀ s, s ≠ "" → get_summary_from_lm_studio (Except.ok (some s)) d = (py_strip s, 1)) := by
  refine ⟨?_, ?_, ?_, ?_⟩
  · intro e
    simp [get_summary_from_lm_studio, hd]
  · simp [get_summary_from_lm_studio, hd]
  · simp [get_summary_from_lm_studio, hd]
  · intro s hs
    simp [get_summary_from_lm_studio, hd, hs]

/-- Witness for `get_summary_never_raises` at the input `"text"` with a raised
completion error `"boom"`. -/
theorem get_summary_never_raises_witness :
    get_summary_from_lm_studio (Except.error "boom") (some "text") =
      ("Error generating summary: boom", 1) :=
  (get_summary_never_raises (some "text") (by decide)).1 "boom"

/-- Removing a path from the modelled filesystem removes every entry equal to
it. -/
theorem removeFile_not_exists (w : World) (p : String) :
    (w.removeFile p).fileExists p = false := by
  unfold World.removeFile World.fileExists
  simp only [List.contains_eq_any_beq, List.any_eq_false]
  intro x hx
  have hne : x ≠ p := by simpa using (List.mem_filter.mp hx).2
  simp only [beq_iff_eq]
  exact fun hpx => hne hpx.symm

/-- C6: if the temporary path chosen for an issue's attachment does not exist
beforehand, it does not exist when the download-and-parse step returns —
on every exit path (missing URL, download failure, parse failure, and
successful parse alike). -/
theorem temp_file_removed (o : IssueOracle) (w : World) (issue : Issue)
    (hfresh : w.fileExists o.tmpName = false) :
    ((process_one o w issue).2).fileExists o.tmpName = false := by
  unfold process_one
  cases htr : truthy ((issue.msg_attachment.getD ⟨none, none⟩).content) with
  | false => simpa [htr] using hfresh
  | true =>
    cases hdl : o.download with
    | error e => simpa [htr, hdl, World.fileExists] using hfresh
    | ok u =>
      have hex : (({ w with downloads := w.downloads + 1 } : World).createFile
          o.tmpName).fileExists o.tmpName = true := by
        simp [World.createFile, World.fileExists]
      simp only [htr, hdl, if_true, hex, ite_true]
      exact removeFile_not_exists _ _

/-- Witness for `temp_file_removed`: a concrete issue whose attachment
download and parse both succeed, run against the empty filesystem. -/
theorem temp_file_removed_witness :
    ((process_one
        ⟨Except.ok (some "d-sum"), "/tmp/a.msg", Except.ok (), Except.ok (some "body"),
         Except.ok (some "e-sum")⟩
        ⟨[], 0⟩
        ⟨some "SUP-1", some ⟨some "t", some [⟨some "mail.msg", some "http://x/1"⟩], none⟩,
         some ⟨some "mail.msg", some "http://x/1"⟩⟩).2).fileExists "/tmp/a.msg" = false :=
  temp_file_removed _ _ _ (by decide)

/-- C7: a failed search request (HTTP 4xx/5xx or network level) terminates the
process with exit status 1 — which is non-zero — and yields no processed
issues; a successful reply without an `issues` field is processed as the
empty list rather than an error; and a successful reply's `issues` list is
exactly what the filter-and-enrich loop runs on. -/
theorem search_failure_fatal (oracles : Nat → IssueOracle) (w : World) :
    (∀ e, process_issues oracles (Except.error e) w = Except.error 1) ∧
    process_issues oracles (Except.ok none) w = Except.ok ([], w) ∧
    (∀ issues, process_issues oracles (Except.ok (some issues)) w =
      Except.ok (run_loop oracles 0 w (filter_msg_issues issues))) ∧
    (1 : Nat) ≠ 0 :=
  ⟨fun _ => rfl, rfl, fun _ => rfl, by decide⟩

/-- The record built for one issue does not depend on the filesystem state the
loop iteration starts from. -/
theorem process_one_fst_const (o : IssueOracle) (w w' : World) (issue : Issue) :
    (process_one o w issue).1 = (process_one o w' issue).1 := by
  unfold process_one
  cases htr : truthy ((issue.msg_attachment.getD ⟨none, none⟩).content) with
  | false => simp [htr]
  | true =>
    cases hdl : o.download with
    | error e => simp [htr, hdl]
    | ok u => simp [htr, hdl]

/-- The enrichment loop emits one record per issue. -/
theorem run_loop_length (oracles : Nat → IssueOracle) (k : Nat) (w : World)
    (issues : List Issue) :
    (run_loop oracles k w issues).1.length = issues.length := by
  induction issues generalizing k w with
  | nil => rfl
  | cons issue rest ih => simp [run_loop, ih]

/-- The record at position `i` of the loop output is determined by issue `i`
and oracle `k + i` alone: no other issue's outcomes, and no filesystem state,
enter into it. -/
theorem run_loop_getElem (oracles : Nat → IssueOracle) (k : Nat) (w : World)
    (issues : List Issue) (i : Nat) :
    (run_loop oracles k w issues).1[i]? =
      (issues[i]?).map (fun issue => (process_one (oracles (k + i)) ⟨[], 0⟩ issue).1) := by
  induction issues generalizing k w i with
  | nil => simp [run_loop]
  | cons issue rest ih =>
    cases i with
    | zero =>
      simp only [run_loop, List.getElem?_cons_zero, Option.map_some', Nat.add_zero]
      exact congrArg some (process_one_fst_const (oracles k) w ⟨[], 0⟩ issue)
    | succ n =>
      simp only [run_loop, List.getElem?_cons_succ]
      rw [show k + (n + 1) = (k + 1) + n by omega]
      exact ih (k + 1) (process_one (oracles k) w issue).2 n

/-- C8: every retained issue contributes exactly one output record, and the
record at position `i` is a function of issue `i` and its own oracle outcomes
only — so a failure in one issue's enrichment (any of its oracles reporting
an error, which `process_one` degrades to sentinel text inside that record)
cannot affect whether or how the subsequent issues are processed. -/
theorem per_issue_failures_isolated (oracles : Nat → IssueOracle) (w : World)
    (issues : List Issue) :
    (run_loop oracles 0 w issues).1.length = issues.length ∧
    ∀ i : Nat, (run_loop oracles 0 w issues).1[i]? =
      (issues[i]?).map (fun issue => (process_one (oracles i) ⟨[], 0⟩ issue).1) := by
  refine ⟨run_loop_length oracles 0 w issues, fun i => ?_⟩
  simpa using run_loop_getElem oracles 0 w issues i

/-- A concrete `.msg` attachment descriptor. -/
def sample_att : Attachment := ⟨some "mail.msg", some "http://x/att/1"⟩

/-- A concrete issue as returned by the tracker: no `msg_attachment` key. -/
def sample_issue : Issue := ⟨some "SUP-1", some ⟨some "t", some [sample_att], none⟩, none⟩

/-- C9 (counterexample to the claim as stated): the attachment filter mutates
the retained issue record — `issue['msg_attachment'] = msg_attachments[0]`
adds a field — so the record that comes out of the filter differs from the
record that went in. -/
theorem filter_mutates_issue_cex :
    filter_msg_issues [sample_issue] =
      [{ sample_issue with msg_attachment := some sample_att }] ∧
    ({ sample_issue with msg_attachment := some sample_att } : Issue) ≠ sample_issue :=
  ⟨rfl, by decide⟩

/-- C9 (amended): issue records are never written back to the tracker, and
every tracker-sourced field (`key`, `fields`) passes through the filter
unchanged; the only modification the pipeline makes is that the filter adds a
`msg_attachment` entry holding the first qualifying attachment of each
retained issue. -/
theorem issues_not_written_back (issues : List Issue) :
    ∀ i' ∈ filter_msg_issues issues, ∃ i ∈ issues,
      i'.key = i.key ∧ i'.fields = i.fields ∧
      i'.msg_attachment = (msg_attachments_of i).head? := by
  induction issues with
  | nil => intro i' h; cases h
  | cons issue rest ih =>
    intro i' h
    cases hmsg : msg_attachments_of issue with
    | nil =>
      simp only [filter_msg_issues, hmsg] at h
      obtain ⟨i, hmem, hprops⟩ := ih i' h
      exact ⟨i, List.mem_cons_of_mem issue hmem, hprops⟩
    | cons a as =>
      simp only [filter_msg_issues, hmsg] at h
      rcases List.mem_cons.mp h with heq | htail
      · refine ⟨issue, List.mem_cons_self issue rest, ?_⟩
        subst heq
        exact ⟨rfl, rfl, by rw [hmsg]; rfl⟩
      · obtain ⟨i, hmem, hprops⟩ := ih i' htail
        exact ⟨i, List.mem_cons_of_mem issue hmem, hprops⟩

/-- Witness for `issues_not_written_back` on the singleton input
`[sample_issue]`. -/
theorem issues_not_written_back_witness :
    ∃ i ∈ [sample_issue],
      ({ sample_issue with msg_attachment := some sample_att } : Issue).key = i.key ∧
      ({ sample_issue with msg_attachment := some sample_att } : Issue).fields = i.fields ∧
      ({ sample_issue with msg_attachment := some sample_att } : Issue).msg_attachment =
        (msg_attachments_of i).head? :=
  issues_not_written_back [sample_issue] _ (by decide)

/-- C10: when the selected `.msg` attachment carries no `content` URL (absent
or empty), the enrichment step performs no download and changes nothing in the
world state, the email summary is the fixed sentinel
`"Could not process email attachment."`, and the description summary is still
produced by the usual extraction-and-summarization path. -/
theorem missing_content_url_no_download (o : IssueOracle) (w : World) (issue : Issue)
    (h : truthy ((issue.msg_attachment.getD ⟨none, none⟩).content) = false) :
    (process_one o w issue).1.email_summary = "Could not process email attachment." ∧
    (process_one o w issue).2 = w ∧
    (process_one o w issue).1.desc_summary =
      (get_summary_from_lm_studio o.descCall
        (some (get_description_text ((issue.fields.getD ⟨none, none, none⟩).description)))).1 := by
  unfold process_one
  simp [h]

/-- Witness for `missing_content_url_no_download`: an attachment descriptor
without a `content` key. -/
theorem missing_content_url_no_download_witness :
    ((process_one
        ⟨Except.ok (some "d"), "/tmp/b.msg", Except.ok (), Except.ok none, Except.ok none⟩
        ⟨[], 0⟩ ⟨some "SUP-2", none, some ⟨some "m.msg", none⟩⟩).1).email_summary =
      "Could not process email attachment." :=
  (missing_content_url_no_download _ _ _ (by decide)).1

/-- An environment with every required variable set to a non-empty value. -/
def env_all_set : String → Option String := fun _ => some "v"

/-- Witness for the success half of `load_configuration_reports_internal_key`:
with every variable set, loading succeeds and returns the settings. -/
theorem load_configuration_succeeds_witness :
    load_configuration env_all_set =
      Except.ok (config_keys.map (fun p => (p.1, env_all_set p.2))) :=
  load_configuration_reports_internal_key.2.2.2 env_all_set (by decide)

end ListSupportRequests
